import Mathlib

/-!
A shallow embedding of the conversation/session synchronization layer of a
browser-resident chat client: the device identity provider
(`lib/sessions/user.ts`), the API-backed sessions repository
(`lib/sessions/apiRepo.ts`), the conversation directory
(`features/chat/hooks/useConversations.ts`) together with its helpers
(`features/chat/lib/placeholders.ts`), and the message exchange controller
(`features/chat/hooks/useChat.ts`).

Modelling conventions:
* JS `Date` values are `Nat` timestamps; every place the source calls
  `new Date()` the embedding takes an explicit `now : Nat` argument.
* `crypto.randomUUID()` results are explicit `fresh` string arguments.
* `localStorage` is a `Storage` record threaded explicitly; `typeof window
  === "undefined"` is an explicit `windowDefined : Bool` argument.
* A network round-trip is an explicit argument describing the remote's
  answer; fetch-level failures and non-success statuses that the source
  turns into thrown `Error`s become `Except.error` values.
* React `useState` state (`conversations`, `activeConversationId`,
  `isTyping`) is gathered in a `ChatState` record; the `setX(prev => ...)`
  functional updates of the source become pure state transformers.
-/

namespace GenshinChat

/-- `Message` from `features/chat/types.ts`: `role` is the literal string
`"user"` or `"assistant"`; `createdAt` models the JS `Date`. -/
structure Message where
  id : String
  role : String
  content : String
  createdAt : Nat
deriving Repr, DecidableEq

/-- `Conversation` from `features/chat/types.ts` (the shape actually used by
the hooks: `id` is the session id). -/
structure Conversation where
  id : String
  title : String
  messages : List Message
  createdAt : Nat
  updatedAt : Nat
deriving Repr, DecidableEq

/-- JS `String.prototype.trim`, modelled on the character list (whitespace:
space, tab, CR, LF — the characters relevant to the inputs at hand). -/
def jsTrim (s : String) : String :=
  ⟨((s.data.dropWhile Char.isWhitespace).reverse.dropWhile Char.isWhitespace).reverse⟩

/-- JS `String.prototype.substring(0, n)`, modelled on the character list
(identical to code-unit slicing on the ASCII inputs at hand). -/
def jsSubstringTo (s : String) (n : Nat) : String :=
  ⟨s.data.take n⟩

/-- `deriveTitleFromMessage` from `features/chat/lib/placeholders.ts`:
trim, return unchanged when at most 25 characters, otherwise
`substring(0, 25)` followed by `"..."`. -/
def deriveTitleFromMessage (message : String) : String :=
  let maxLength := 25
  let cleaned := jsTrim message
  if cleaned.length ≤ maxLength then
    cleaned
  else
    jsSubstringTo cleaned maxLength ++ "..."

/-- `createNewConversation` from `placeholders.ts`: fresh session id, title
`"New Conversation"`, empty transcript, both timestamps `now`. -/
def createNewConversation (freshId : String) (now : Nat) : Conversation :=
  ⟨freshId, "New Conversation", [], now, now⟩

/-- `createMessage` from `placeholders.ts`. -/
def createMessage (role content freshId : String) (now : Nat) : Message :=
  ⟨freshId, role, content, now⟩

/-- The device-local persisted state of `lib/sessions/user.ts`: the value
stored under the `"genshin:userId"` key (`none` models `getItem` returning
`null`). -/
structure Storage where
  userId : Option String
deriving Repr, DecidableEq

/-- `getOrCreateUserId` from `user.ts`. Returns the identifier and the
storage state after the call. When `window` is undefined it returns `""`
without touching storage. `!userId` in JS is true for `null` and for the
empty string, hence the `getD "" = ""` test. -/
def getOrCreateUserId (windowDefined : Bool) (fresh : String) (s : Storage) :
    String × Storage :=
  if windowDefined then
    if s.userId.getD "" = "" then (fresh, ⟨some fresh⟩)
    else (s.userId.getD "", s)
  else ("", s)

/-- `clearUserId` from `user.ts`: removes the key when `window` is defined,
otherwise does nothing. The source never throws. -/
def clearUserId (windowDefined : Bool) (s : Storage) : Storage :=
  if windowDefined then ⟨none⟩ else s

/-- `hasUserId` from `user.ts`. -/
def hasUserId (windowDefined : Bool) (s : Storage) : Bool :=
  if windowDefined then s.userId.isSome else false

/-- A `Partial<Conversation>` as passed to `updateConversation`: `none`
means the field is absent from the update object. -/
structure ConvUpdates where
  id : Option String
  title : Option String
  messages : Option (List Message)
  createdAt : Option Nat
  updatedAt : Option Nat
deriving Repr, DecidableEq

/-- The merge `{ ...c, ...updates, updatedAt: new Date() }` performed by
`updateConversation` in `useConversations.ts`: fields present in the update
override, and the trailing `updatedAt: new Date()` wins over any `updatedAt`
in the update object. -/
def applyUpd (c : Conversation) (u : ConvUpdates) (now : Nat) : Conversation :=
  ⟨u.id.getD c.id, u.title.getD c.title, u.messages.getD c.messages,
    u.createdAt.getD c.createdAt, now⟩

/-- `updateConversation` from `useConversations.ts`, acting on the
`conversations` list: map over the list, merging the updates into every
conversation whose `id` matches. -/
def updateConversation (conversationId : String) (u : ConvUpdates) (now : Nat)
    (cs : List Conversation) : List Conversation :=
  cs.map fun c => if c.id == conversationId then applyUpd c u now else c

/-- An update object containing only a `messages` field. -/
def msgUpd (ms : List Message) : ConvUpdates :=
  ⟨none, none, some ms, none, none⟩

/-- An update object containing only a `title` field. -/
def titleUpd (t : String) : ConvUpdates :=
  ⟨none, some t, none, none, none⟩

/-- `updateConversationTitle` from `useConversations.ts`:
`updateConversation(id, { title: deriveTitleFromMessage(firstMessage) })`. -/
def updateConversationTitle (conversationId firstMessage : String) (now : Nat)
    (cs : List Conversation) : List Conversation :=
  updateConversation conversationId (titleUpd (deriveTitleFromMessage firstMessage)) now cs

/-- The React state shared by `useConversations` and `useChat`. -/
structure ChatState where
  conversations : List Conversation
  activeConversationId : Option String
  isTyping : Bool
deriving Repr, DecidableEq

/-- `activeConversation` from `useConversations.ts`:
`conversations.find(c => c.id === activeConversationId) ?? null`. -/
def activeConversation (st : ChatState) : Option Conversation :=
  match st.activeConversationId with
  | none => none
  | some cid => st.conversations.find? fun c => c.id == cid

/-- `createConversation` from `useConversations.ts`: build a placeholder via
`createNewConversation`, prepend it, mark it active, return it. -/
def createConversation (freshId : String) (now : Nat) (st : ChatState) :
    Conversation × ChatState :=
  let newConversation := createNewConversation freshId now
  (newConversation,
    { st with
        conversations := newConversation :: st.conversations,
        activeConversationId := some newConversation.id })

/-- The assistant message `sendMessage` appends after the round-trip: built
from the response text on success, and with the fixed apologetic content on
any thrown error (the `catch` branch of `useChat.ts`). -/
def sendAssistantMessage (result : Except String String) (asstMsgId : String)
    (now2 : Nat) : Message :=
  match result with
  | Except.ok responseText => createMessage "assistant" responseText asstMsgId now2
  | Except.error _ =>
      createMessage "assistant" "Sorry, I encountered an error. Please try again."
        asstMsgId now2

/-- The body of `useChat.sendMessage` after the guards and after the target
conversation has been resolved; `result` is the outcome of
`apiRepo.sendChatMessage` (`Except.ok responseText` on success,
`Except.error e` when it throws); `now1` is the time of the optimistic
phase, `now2` the time the round-trip settles. The `finally` clause makes
`isTyping` end `false` on every path. -/
def sendBody (conversation : Conversation) (contentTrimmed userMsgId asstMsgId : String)
    (now1 now2 : Nat) (result : Except String String) (st : ChatState) : ChatState :=
  let userMessage := createMessage "user" contentTrimmed userMsgId now1
  let updatedMessages := conversation.messages ++ [userMessage]
  let st1 := { st with
    conversations := updateConversation conversation.id (msgUpd updatedMessages) now1
      st.conversations }
  let st2 :=
    if conversation.messages.length == 0 then
      { st1 with
        conversations := updateConversationTitle conversation.id contentTrimmed now1
          st1.conversations }
    else st1
  let st3 := { st2 with
    conversations := updateConversation conversation.id
      (msgUpd (updatedMessages ++ [sendAssistantMessage result asstMsgId now2])) now2
      st2.conversations }
  { st3 with isTyping := false }

/-- `sendMessage` from `useChat.ts`: no-op on blank content or missing
identity; otherwise send into the active conversation, creating one first
when none is active. `newConvId`, `userMsgId`, `asstMsgId` are the UUIDs
generated along the way. The source catches every `sendChatMessage` error,
so the embedding is total: it never propagates `result`'s error. -/
def sendMessage (content userId newConvId userMsgId asstMsgId : String)
    (now1 now2 : Nat) (result : Except String String) (st : ChatState) : ChatState :=
  if jsTrim content == "" then st
  else if userId == "" then st
  else
    match activeConversation st with
    | some conversation =>
        sendBody conversation (jsTrim content) userMsgId asstMsgId now1 now2 result st
    | none =>
        let created := createConversation newConvId now1 st
        sendBody created.1 (jsTrim content) userMsgId asstMsgId now1 now2 result created.2

/-- The conversation a (non-rejected) `sendMessage` call targets: the active
conversation when there is one, otherwise the placeholder it creates. -/
def sendTarget (newConvId : String) (now1 : Nat) (st : ChatState) : Conversation :=
  match activeConversation st with
  | some conversation => conversation
  | none => createNewConversation newConvId now1

/-- A message as it appears in the `GET /api/v1/sessions/:id` response body
(`created_at` already as a timestamp). -/
structure ApiMessage where
  id : String
  role : String
  content : String
  created_at : Nat
deriving Repr, DecidableEq

/-- The `GET /api/v1/sessions/:id` success body. -/
structure SessionBody where
  session_id : String
  title : String
  messages : List ApiMessage
deriving Repr, DecidableEq

/-- `fetch`'s `Response.ok`: status in the inclusive range 200–299. -/
def resOk (status : Nat) : Bool :=
  200 ≤ status && status ≤ 299

/-- The message mapping inside `ApiSessionsRepository.getSession`. -/
def convertApiMessage (m : ApiMessage) : Message :=
  ⟨m.id, m.role, m.content, m.created_at⟩

/-- `ApiSessionsRepository.getSession` from `apiRepo.ts`, given the remote's
status and (on success) body: status 404 yields `ok none` (absent), any
other non-2xx status throws `Failed to get session`, and a success status
yields the full conversation, with `createdAt`/`updatedAt` set to `now`
because the API does not return them. -/
def getSession (status : Nat) (body : SessionBody) (now : Nat) :
    Except String (Option Conversation) :=
  if status = 404 then Except.ok none
  else if resOk status then
    Except.ok (some ⟨body.session_id, body.title, body.messages.map convertApiMessage,
      now, now⟩)
  else Except.error ("Failed to get session: " ++ toString status)

/-- Result of `selectConversation`: the new state plus whether a
`Repository.getSession` fetch was issued. -/
structure SelectResult where
  state : ChatState
  fetchIssued : Bool
deriving Repr, DecidableEq

/-- The `try`-block of `selectConversation` once a fetch is issued: a thrown
error or an absent session leaves the state untouched; a returned session is
merged by `{ ...c, messages: session.messages, title: session.title }`,
which touches only those two fields and does not bump `updatedAt`. -/
def selectFetch (conversationId : String) (remote : Except String (Option Conversation))
    (st0 : ChatState) : SelectResult :=
  match remote with
  | Except.error _ => ⟨st0, true⟩
  | Except.ok none => ⟨st0, true⟩
  | Except.ok (some session) =>
      ⟨{ st0 with
          conversations := st0.conversations.map fun c =>
            if c.id == conversationId then
              { c with messages := session.messages, title := session.title }
            else c },
        true⟩

/-- `selectConversation` from `useConversations.ts`. `remote` is what the
`apiRepo.getSession` call would produce (`Except.error` for a thrown error,
`ok none` for a 404-absent session); it is consulted only when a fetch is
actually issued. -/
def selectConversation (conversationId userId : String)
    (remote : Except String (Option Conversation)) (st : ChatState) : SelectResult :=
  let st0 := { st with activeConversationId := some conversationId }
  if userId == "" then ⟨st0, false⟩
  else
    match st0.conversations.find? fun c => c.id == conversationId with
    | some existing =>
        if existing.messages.length > 0 then ⟨st0, false⟩
        else selectFetch conversationId remote st0
    | none => selectFetch conversationId remote st0

/-- `sortedConversations` from `useConversations.ts`:
`[...conversations].sort((a, b) => b.updatedAt.getTime() -
a.updatedAt.getTime())` — a stable sort, descending by `updatedAt`. -/
def sortedConversations (cs : List Conversation) : List Conversation :=
  cs.mergeSort fun a b => decide (b.updatedAt ≤ a.updatedAt)

/-- One `update(id, partialFields)` call, with the `new Date()` the call
would observe. -/
structure UpdCall where
  target : String
  upd : ConvUpdates
  now : Nat
deriving Repr, DecidableEq

/-- Apply a sequence of `update` calls left to right. -/
def applyCalls (cs : List Conversation) : List UpdCall → List Conversation
  | [] => cs
  | u :: rest => applyCalls (updateConversation u.target u.upd u.now cs) rest

/-- The discipline §4.3 imposes on callers of `update`: an update that
carries a `messages` field never shrinks the matched conversation's
transcript, and the observed clock is at least the matched conversation's
current `updatedAt`. -/
def okCall (cs : List Conversation) (u : UpdCall) : Prop :=
  ∀ c ∈ cs, c.id = u.target →
    (∀ ms, u.upd.messages = some ms → c.messages.length ≤ ms.length) ∧
      c.updatedAt ≤ u.now

/-- Every call of the sequence satisfies `okCall` in the state it is
applied to. -/
def okSeq : List Conversation → List UpdCall → Prop
  | _, [] => True
  | cs, u :: rest => okCall cs u ∧ okSeq (updateConversation u.target u.upd u.now cs) rest

/-- C3 (counterexample): the quoted input has 58 characters, not 53, and
`deriveTitleFromMessage` keeps the first 25 characters of the trimmed text
and appends `"..."` after them, so the result is 28 characters — it is not
the 25-character string `"Tell me about Mondstad..."` the claim gives. -/
theorem deriveTitle_claim_counterexample :
    deriveTitleFromMessage "Tell me about Mondstadt and the Knights of Favonius please" ≠
        "Tell me about Mondstad..." ∧
      ("Tell me about Mondstadt and the Knights of Favonius please").length = 58 := by
  constructor
  · decide
  · decide

/-- C3 (amended): on the 58-character example the derived title is the first
25 characters followed by the ellipsis marker, `"Tell me about Mondstadt
a..."`, 28 characters in all; `"hi"` comes back unchanged; in general the
trimmed input is returned whole when it has at most 25 characters, and
otherwise its first 25 characters are returned with `"..."` appended. -/
theorem deriveTitle_spec :
    deriveTitleFromMessage "Tell me about Mondstadt and the Knights of Favonius please" =
        "Tell me about Mondstadt a..." ∧
      (deriveTitleFromMessage
        "Tell me about Mondstadt and the Knights of Favonius please").length = 28 ∧
      deriveTitleFromMessage "hi" = "hi" ∧
      ∀ m : String,
        ((jsTrim m).length ≤ 25 → deriveTitleFromMessage m = jsTrim m) ∧
          (¬ (jsTrim m).length ≤ 25 →
            deriveTitleFromMessage m = jsSubstringTo (jsTrim m) 25 ++ "...") := by
  refine ⟨by decide, by decide, by decide, fun m => ⟨fun h => ?_, fun h => ?_⟩⟩
  · simp [deriveTitleFromMessage, h]
  · simp [deriveTitleFromMessage, h]

/-- C8: with device storage available, two consecutive `getOrCreateUserId`
calls with no intervening clear return the identical identifier — the second
call reads back the value the first persisted. (The hypothesis says the
freshly generated UUID of the first call is not the empty string.) -/
theorem getOrCreateUserId_idempotent (s : Storage) (fresh1 fresh2 : String)
    (h : fresh1 ≠ "") :
    (getOrCreateUserId true fresh2 (getOrCreateUserId true fresh1 s).2).1 =
      (getOrCreateUserId true fresh1 s).1 := by
  unfold getOrCreateUserId
  by_cases h0 : s.userId.getD "" = "" <;> simp [h0, h]

/-- Witness for the C8 theorem at a concrete storage state and UUIDs. -/
theorem getOrCreateUserId_idempotent_witness :
    (getOrCreateUserId true "uuid-2" (getOrCreateUserId true "uuid-1" ⟨none⟩).2).1 =
      (getOrCreateUserId true "uuid-1" ⟨none⟩).1 :=
  getOrCreateUserId_idempotent ⟨none⟩ "uuid-1" "uuid-2" (by decide)

/-- C9 (counterexample): when the persistence medium cannot be accessed
(`window` undefined), `clearUserId` does not fail with any error condition —
it is a total function that returns normally — and it leaves the persisted
identifier in place. -/
theorem clearUserId_claim_counterexample :
    clearUserId false ⟨some "uuid-1"⟩ = ⟨some "uuid-1"⟩ ∧
      (clearUserId false ⟨some "uuid-1"⟩).userId ≠ none := by
  constructor
  · decide
  · decide

/-- C9 (amended): with storage available, `clearUserId` removes the
persisted identifier and the next `getOrCreateUserId` call generates (and
returns) the fresh value; with storage unavailable, `clearUserId` is a
silent no-op that returns normally with the state unchanged. -/
theorem clearUserId_spec (s t : Storage) (fresh : String) :
    (clearUserId true s).userId = none ∧
      (getOrCreateUserId true fresh (clearUserId true s)).1 = fresh ∧
      clearUserId false t = t := by
  refine ⟨?_, ?_, ?_⟩ <;> simp [clearUserId, getOrCreateUserId]

/-- Witness for the C9 amended theorem at concrete states. -/
theorem clearUserId_spec_witness :
    (clearUserId true ⟨some "uuid-1"⟩).userId = none ∧
      (getOrCreateUserId true "uuid-2" (clearUserId true ⟨some "uuid-1"⟩)).1 = "uuid-2" ∧
      clearUserId false ⟨some "uuid-3"⟩ = ⟨some "uuid-3"⟩ :=
  clearUserId_spec ⟨some "uuid-1"⟩ ⟨some "uuid-3"⟩ "uuid-2"

/-- C5: `getSession` returns the absent value (`ok none`) exactly when the
status is the not-found status 404; on a success (2xx) status it returns the
full converted conversation; on any other status it fails with the thrown
`Failed to get session` error. Absence is an `Except.ok`, so it is
distinguishable from every thrown error at the caller. -/
theorem getSession_status_trichotomy (status : Nat) (body : SessionBody) (now : Nat) :
    (getSession status body now = Except.ok none ↔ status = 404) ∧
      (resOk status = true →
        getSession status body now =
          Except.ok (some ⟨body.session_id, body.title,
            body.messages.map convertApiMessage, now, now⟩)) ∧
      (status ≠ 404 → resOk status = false →
        getSession status body now =
          Except.error ("Failed to get session: " ++ toString status)) := by
  refine ⟨⟨fun h => ?_, fun h4 => by simp [getSession, h4]⟩, fun hok => ?_, fun h4 hok => ?_⟩
  · by_contra h4
    by_cases hok : resOk status = true <;> simp [getSession, h4, hok] at h
  · have h4 : status ≠ 404 := by
      intro h
      subst h
      exact absurd hok (by decide)
    simp [getSession, h4, hok]
  · simp [getSession, h4, hok]

/-- Witness for the C5 theorem: 404 is absent, 200 is the full session,
500 is the thrown error. -/
theorem getSession_status_trichotomy_witness :
    getSession 404 ⟨"s1", "t1", []⟩ 7 = Except.ok none ∧
      getSession 200 ⟨"s1", "t1", []⟩ 7 = Except.ok (some ⟨"s1", "t1", [], 7, 7⟩) ∧
      getSession 500 ⟨"s1", "t1", []⟩ 7 =
        Except.error ("Failed to get session: " ++ toString 500) := by
  refine ⟨(getSession_status_trichotomy 404 ⟨"s1", "t1", []⟩ 7).1.mpr rfl, ?_, ?_⟩
  · have h := (getSession_status_trichotomy 200 ⟨"s1", "t1", []⟩ 7).2.1 (by decide)
    simpa using h
  · exact (getSession_status_trichotomy 500 ⟨"s1", "t1", []⟩ 7).2.2 (by decide) (by decide)

/-- `applyUpd` with an update that does not carry an `id` field preserves
the conversation's id. -/
theorem applyUpd_id (c : Conversation) (u : ConvUpdates) (now : Nat) (h : u.id = none) :
    (applyUpd c u now).id = c.id := by
  simp [applyUpd, h]

/-- `updateConversation` preserves the length of the directory. -/
theorem length_updateConversation (tid : String) (u : ConvUpdates) (now : Nat)
    (cs : List Conversation) :
    (updateConversation tid u now cs).length = cs.length := by
  simp [updateConversation]

/-- Looking a conversation up by id commutes with `updateConversation` when
the update does not carry an `id` field. -/
theorem find?_updateConversation (x tid : String) (u : ConvUpdates) (now : Nat)
    (cs : List Conversation) (h : u.id = none) :
    (updateConversation tid u now cs).find? (fun c => c.id == x) =
      (cs.find? (fun c => c.id == x)).map
        (fun c => if c.id == tid then applyUpd c u now else c) := by
  induction cs with
  | nil => rfl
  | cons c rest ih =>
      have hid : ((if c.id == tid then applyUpd c u now else c).id == x) = (c.id == x) := by
        by_cases hct : (c.id == tid) = true
        · rw [if_pos hct, applyUpd_id c u now h]
        · rw [if_neg hct]
      simp only [updateConversation, List.map_cons] at ih ⊢
      rw [List.find?_cons, List.find?_cons, hid]
      cases hcx : (c.id == x) with
      | false => simpa using ih
      | true => simp

/-- When a conversation is active, looking its own id up in the directory
finds it (it is the first conversation with that id). -/
theorem activeConversation_find (st : ChatState) (conversation : Conversation)
    (h : activeConversation st = some conversation) :
    st.conversations.find? (fun c => c.id == conversation.id) = some conversation := by
  unfold activeConversation at h
  cases hA : st.activeConversationId with
  | none => rw [hA] at h; cases h
  | some aid =>
      rw [hA] at h
      have h' : st.conversations.find? (fun c => c.id == aid) = some conversation := h
      have hid := List.find?_some h'
      have heq : conversation.id = aid := by simpa using hid
      rw [heq]
      exact h'

/-- After `sendBody`, looking the target conversation up by id finds it with
the optimistic user message and the settled assistant message appended after
its previous transcript, the derived title when this was its first message,
and `updatedAt` at the settle time. -/
theorem sendBody_find (conversation : Conversation) (ct uid aid : String)
    (now1 now2 : Nat) (result : Except String String) (st : ChatState)
    (base : st.conversations.find? (fun c => c.id == conversation.id) =
      some conversation) :
    (sendBody conversation ct uid aid now1 now2 result st).conversations.find?
        (fun c => c.id == conversation.id) =
      some ⟨conversation.id,
        if conversation.messages.length == 0 then deriveTitleFromMessage ct
        else conversation.title,
        conversation.messages ++
          [createMessage "user" ct uid now1, sendAssistantMessage result aid now2],
        conversation.createdAt, now2⟩ := by
  simp only [sendBody, apply_ite ChatState.conversations]
  by_cases h0 : (conversation.messages.length == 0) = true
  · rw [if_pos h0, if_pos h0, updateConversationTitle,
      find?_updateConversation _ _ _ _ _ rfl, find?_updateConversation _ _ _ _ _ rfl,
      find?_updateConversation _ _ _ _ _ rfl, base]
    simp [applyUpd, msgUpd, titleUpd]
  · rw [if_neg h0, if_neg h0, find?_updateConversation _ _ _ _ _ rfl,
      find?_updateConversation _ _ _ _ _ rfl, base]
    simp [applyUpd, msgUpd]

/-- `sendBody` never touches which conversation is active. -/
theorem sendBody_activeId (conversation : Conversation) (ct uid aid : String)
    (now1 now2 : Nat) (result : Except String String) (st : ChatState) :
    (sendBody conversation ct uid aid now1 now2 result st).activeConversationId =
      st.activeConversationId := by
  simp only [sendBody, apply_ite ChatState.activeConversationId]
  split <;> rfl

/-- `sendBody` never adds or removes a conversation. -/
theorem sendBody_length (conversation : Conversation) (ct uid aid : String)
    (now1 now2 : Nat) (result : Except String String) (st : ChatState) :
    (sendBody conversation ct uid aid now1 now2 result st).conversations.length =
      st.conversations.length := by
  simp only [sendBody, apply_ite ChatState.conversations]
  split <;> simp [updateConversationTitle, length_updateConversation]

/-- C1: when `sendChatMessage` rejects, `sendMessage` still returns normally
(the embedding is a total function: the error is caught, never re-thrown)
and the target conversation keeps the optimistically appended user message,
followed by exactly one assistant message with the fixed apologetic
content. -/
theorem sendMessage_failure_keeps_optimistic
    (content userId newConvId userMsgId asstMsgId e : String)
    (now1 now2 : Nat) (st : ChatState)
    (hc : jsTrim content ≠ "") (hu : userId ≠ "") :
    ∃ c',
      (sendMessage content userId newConvId userMsgId asstMsgId now1 now2
          (Except.error e) st).conversations.find?
        (fun c => c.id == (sendTarget newConvId now1 st).id) = some c' ∧
      c'.messages = (sendTarget newConvId now1 st).messages ++
        [createMessage "user" (jsTrim content) userMsgId now1,
          createMessage "assistant" "Sorry, I encountered an error. Please try again."
            asstMsgId now2] := by
  have hcb : (jsTrim content == "") = false := by simpa using hc
  have hub : (userId == "") = false := by simpa using hu
  simp only [sendMessage, sendTarget]
  rw [hcb, hub]
  cases hact : activeConversation st with
  | some conversation =>
      have base := activeConversation_find st conversation hact
      have hfind := sendBody_find conversation (jsTrim content) userMsgId asstMsgId
        now1 now2 (Except.error e) st base
      exact ⟨_, hfind, rfl⟩
  | none =>
      have base : (createConversation newConvId now1 st).2.conversations.find?
          (fun c => c.id == (createNewConversation newConvId now1).id) =
            some (createNewConversation newConvId now1) := by
        simp [createConversation, List.find?_cons]
      have hfind := sendBody_find (createNewConversation newConvId now1) (jsTrim content)
        userMsgId asstMsgId now1 now2 (Except.error e)
        (createConversation newConvId now1 st).2 base
      exact ⟨_, hfind, rfl⟩

/-- Witness for the C1 theorem: a concrete failed send into an empty
directory. -/
theorem sendMessage_failure_keeps_optimistic_witness :
    ∃ c',
      (sendMessage "hi" "user-1" "conv-1" "m-1" "m-2" 3 4
          (Except.error "network down") ⟨[], none, false⟩).conversations.find?
        (fun c => c.id == (sendTarget "conv-1" 3 ⟨[], none, false⟩).id) = some c' ∧
      c'.messages = (sendTarget "conv-1" 3 ⟨[], none, false⟩).messages ++
        [createMessage "user" (jsTrim "hi") "m-1" 3,
          createMessage "assistant" "Sorry, I encountered an error. Please try again."
            "m-2" 4] :=
  sendMessage_failure_keeps_optimistic "hi" "user-1" "conv-1" "m-1" "m-2"
    "network down" 3 4 ⟨[], none, false⟩ (by decide) (by decide)

/-- C2: a send with no active conversation creates exactly one conversation
(the directory grows by one), makes it the active one, and after a
successful round-trip its transcript is exactly a user message followed by
an assistant message. -/
theorem sendMessage_no_active_two_messages
    (content userId newConvId userMsgId asstMsgId responseText : String)
    (now1 now2 : Nat) (st : ChatState)
    (hc : jsTrim content ≠ "") (hu : userId ≠ "")
    (ha : activeConversation st = none) :
    (sendMessage content userId newConvId userMsgId asstMsgId now1 now2
        (Except.ok responseText) st).conversations.length =
      st.conversations.length + 1 ∧
    (sendMessage content userId newConvId userMsgId asstMsgId now1 now2
        (Except.ok responseText) st).activeConversationId = some newConvId ∧
    ∃ c',
      (sendMessage content userId newConvId userMsgId asstMsgId now1 now2
          (Except.ok responseText) st).conversations.find?
        (fun c => c.id == newConvId) = some c' ∧
      c'.messages = [createMessage "user" (jsTrim content) userMsgId now1,
        createMessage "assistant" responseText asstMsgId now2] ∧
      c'.messages.map Message.role = ["user", "assistant"] := by
  have hcb : (jsTrim content == "") = false := by simpa using hc
  have hub : (userId == "") = false := by simpa using hu
  have base : (createConversation newConvId now1 st).2.conversations.find?
      (fun c => c.id == (createNewConversation newConvId now1).id) =
        some (createNewConversation newConvId now1) := by
    simp [createConversation, List.find?_cons]
  have hfind := sendBody_find (createNewConversation newConvId now1) (jsTrim content)
    userMsgId asstMsgId now1 now2 (Except.ok responseText)
    (createConversation newConvId now1 st).2 base
  simp only [sendMessage]
  rw [hcb, hub, ha]
  refine ⟨?_, ?_, ?_⟩
  · show (sendBody (createConversation newConvId now1 st).1 (jsTrim content) userMsgId
        asstMsgId now1 now2 (Except.ok responseText)
        (createConversation newConvId now1 st).2).conversations.length =
      st.conversations.length + 1
    rw [sendBody_length]
    simp [createConversation]
  · show (sendBody (createConversation newConvId now1 st).1 (jsTrim content) userMsgId
        asstMsgId now1 now2 (Except.ok responseText)
        (createConversation newConvId now1 st).2).activeConversationId =
      some newConvId
    rw [sendBody_activeId]
    simp [createConversation, createNewConversation]
  · refine ⟨_, hfind, ?_, ?_⟩ <;> rfl

/-- Witness for the C2 theorem: a concrete successful send into an empty
directory. -/
theorem sendMessage_no_active_two_messages_witness :
    (sendMessage "hi" "user-1" "conv-1" "m-1" "m-2" 3 4
        (Except.ok "Hello, traveler!") ⟨[], none, false⟩).conversations.length =
      ([] : List Conversation).length + 1 ∧
    (sendMessage "hi" "user-1" "conv-1" "m-1" "m-2" 3 4
        (Except.ok "Hello, traveler!") ⟨[], none, false⟩).activeConversationId =
      some "conv-1" ∧
    ∃ c',
      (sendMessage "hi" "user-1" "conv-1" "m-1" "m-2" 3 4
          (Except.ok "Hello, traveler!") ⟨[], none, false⟩).conversations.find?
        (fun c => c.id == "conv-1") = some c' ∧
      c'.messages = [createMessage "user" (jsTrim "hi") "m-1" 3,
        createMessage "assistant" "Hello, traveler!" "m-2" 4] ∧
      c'.messages.map Message.role = ["user", "assistant"] :=
  sendMessage_no_active_two_messages "hi" "user-1" "conv-1" "m-1" "m-2"
    "Hello, traveler!" 3 4 ⟨[], none, false⟩ (by decide) (by decide) rfl

/-- C6: `selectConversation` always makes the targeted id active; a
conversation already holding one or more messages is never re-fetched (no
`getSession` call is issued and the directory is unchanged); with an
identity available, when the matching conversation's transcript is empty
and the remote returns a session, exactly the `messages` and `title` fields
of matching conversations are replaced by the fetched values — every other
field, and every conversation at any other position, is left undisturbed. -/
theorem selectConversation_spec (conversationId userId : String)
    (remote : Except String (Option Conversation)) (st : ChatState) :
    (selectConversation conversationId userId remote st).state.activeConversationId =
        some conversationId ∧
      (∀ ex, st.conversations.find? (fun c => c.id == conversationId) = some ex →
        0 < ex.messages.length →
        (selectConversation conversationId userId remote st).fetchIssued = false ∧
          (selectConversation conversationId userId remote st).state.conversations =
            st.conversations) ∧
      (∀ session, userId ≠ "" → remote = Except.ok (some session) →
        ∀ ex, st.conversations.find? (fun c => c.id == conversationId) = some ex →
        ex.messages = [] →
        (selectConversation conversationId userId remote st).fetchIssued = true ∧
          ∀ i : Nat, ∀ c, st.conversations[i]? = some c →
            (selectConversation conversationId userId remote st).state.conversations[i]? =
              some (if c.id == conversationId then
                { c with messages := session.messages, title := session.title }
              else c)) := by
  refine ⟨?_, ?_, ?_⟩
  · unfold selectConversation
    by_cases hu : (userId == "") = true
    · rw [if_pos hu]
    · rw [if_neg hu]
      cases hf : st.conversations.find? (fun c => c.id == conversationId) with
      | none =>
          simp only [hf]
          cases remote with
          | error e => rfl
          | ok s => cases s with
            | none => rfl
            | some session => rfl
      | some ex =>
          simp only [hf]
          by_cases hl : ex.messages.length > 0
          · rw [if_pos hl]
          · rw [if_neg hl]
            cases remote with
            | error e => rfl
            | ok s => cases s with
              | none => rfl
              | some session => rfl
  · intro ex hex hlen
    unfold selectConversation
    by_cases hu : (userId == "") = true
    · rw [if_pos hu]
      exact ⟨rfl, rfl⟩
    · rw [if_neg hu]
      simp only [hex]
      rw [if_pos hlen]
      exact ⟨rfl, rfl⟩
  · intro session hu' hrem ex hex hempty
    have hu : (userId == "") = false := by simpa using hu'
    have hlen : ¬ ex.messages.length > 0 := by simp [hempty]
    unfold selectConversation
    rw [hu]
    rw [if_neg Bool.false_ne_true]
    simp only [hex]
    rw [if_neg hlen, hrem]
    refine ⟨rfl, ?_⟩
    intro i c hi
    show (st.conversations.map fun c =>
        if c.id == conversationId then
          { c with messages := session.messages, title := session.title }
        else c)[i]? = _
    rw [List.getElem?_map, hi]
    rfl

/-- Witness for the C6 theorem: selecting an empty-transcript conversation
with a returned session merges exactly messages and title at its position. -/
theorem selectConversation_spec_witness :
    (selectConversation "a" "user-1"
          (Except.ok (some ⟨"a", "fetched title", [⟨"m", "user", "hi", 2⟩], 9, 9⟩))
          ⟨[⟨"a", "old title", [], 0, 4⟩], none, false⟩).state.conversations[0]? =
      some (if (⟨"a", "old title", [], 0, 4⟩ : Conversation).id == "a" then
        { (⟨"a", "old title", [], 0, 4⟩ : Conversation) with
            messages := [⟨"m", "user", "hi", 2⟩], title := "fetched title" }
      else ⟨"a", "old title", [], 0, 4⟩) :=
  ((selectConversation_spec "a" "user-1"
      (Except.ok (some ⟨"a", "fetched title", [⟨"m", "user", "hi", 2⟩], 9, 9⟩))
      ⟨[⟨"a", "old title", [], 0, 4⟩], none, false⟩).2.2
    ⟨"a", "fetched title", [⟨"m", "user", "hi", 2⟩], 9, 9⟩ (by decide) rfl
    ⟨"a", "old title", [], 0, 4⟩ (by decide) rfl).2 0 ⟨"a", "old title", [], 0, 4⟩ rfl

/-- C10: `updateConversation` leaves every conversation whose id differs
from the targeted id completely unchanged (same record at the same
position), and when no conversation carries the id the directory is
entirely unchanged; the call is a total function, so it returns normally in
that case. -/
theorem updateConversation_frame (tid : String) (u : ConvUpdates) (now : Nat)
    (cs : List Conversation) :
    (∀ i : Nat, ∀ c, cs[i]? = some c → c.id ≠ tid →
      (updateConversation tid u now cs)[i]? = some c) ∧
      ((∀ c ∈ cs, c.id ≠ tid) → updateConversation tid u now cs = cs) := by
  constructor
  · intro i c hi hne
    have hb : ¬ (c.id == tid) = true := by simpa using hne
    unfold updateConversation
    rw [List.getElem?_map, hi, Option.map_some', if_neg hb]
  · intro h
    unfold updateConversation
    have hcong : ∀ c ∈ cs, (if c.id == tid then applyUpd c u now else c) = id c := by
      intro c hc
      rw [if_neg]
      · rfl
      · simpa using h c hc
    rw [List.map_congr_left hcong, List.map_id]

/-- Witness for the C10 theorem: a non-matching update call leaves a
one-conversation directory untouched. -/
theorem updateConversation_frame_witness :
    (updateConversation "b" (titleUpd "x") 9 [⟨"a", "t", [], 0, 0⟩])[0]? =
        some ⟨"a", "t", [], 0, 0⟩ ∧
      updateConversation "b" (titleUpd "x") 9 [⟨"a", "t", [], 0, 0⟩] =
        [⟨"a", "t", [], 0, 0⟩] :=
  ⟨(updateConversation_frame "b" (titleUpd "x") 9 [⟨"a", "t", [], 0, 0⟩]).1 0
      ⟨"a", "t", [], 0, 0⟩ rfl (by decide),
    (updateConversation_frame "b" (titleUpd "x") 9 [⟨"a", "t", [], 0, 0⟩]).2
      (by decide)⟩

/-- C4 (counterexample): `update` places no restriction on the `messages`
field it is handed — one call replacing a 1-message transcript by the empty
list shrinks `messages` from length 1 to length 0, and one call whose clock
reads 0 on a conversation whose `updatedAt` is 7 drops `updatedAt` to 0; so
neither quantity is monotonically non-decreasing over arbitrary update
sequences. -/
theorem update_monotonicity_counterexample :
    updateConversation "a" (msgUpd []) 5 [⟨"a", "t", [⟨"m", "user", "hi", 0⟩], 0, 0⟩] =
        [⟨"a", "t", [], 0, 5⟩] ∧
      updateConversation "a" (titleUpd "x") 0 [⟨"a", "t", [], 0, 7⟩] =
        [⟨"a", "x", [], 0, 0⟩] := by
  constructor
  · decide
  · decide

/-- `applyCalls` splits over list append. -/
theorem applyCalls_append (us1 us2 : List UpdCall) (cs : List Conversation) :
    applyCalls cs (us1 ++ us2) = applyCalls (applyCalls cs us1) us2 := by
  induction us1 generalizing cs with
  | nil => rfl
  | cons u rest ih => simp [applyCalls, ih]

/-- A valid sequence stays valid after running any prefix. -/
theorem okSeq_append (us1 us2 : List UpdCall) (cs : List Conversation)
    (h : okSeq cs (us1 ++ us2)) : okSeq (applyCalls cs us1) us2 := by
  induction us1 generalizing cs with
  | nil => exact h
  | cons u rest ih => exact ih (updateConversation u.target u.upd u.now cs) h.2

/-- One valid `update` call never shrinks a conversation's transcript nor
decreases its `updatedAt`. -/
theorem updateConversation_step_mono (u : UpdCall) (cs : List Conversation)
    (h : okCall cs u) (i : Nat) (c : Conversation) (hi : cs[i]? = some c) :
    ∃ c', (updateConversation u.target u.upd u.now cs)[i]? = some c' ∧
      c.messages.length ≤ c'.messages.length ∧ c.updatedAt ≤ c'.updatedAt := by
  have hmem : c ∈ cs := List.getElem?_mem hi
  refine ⟨if c.id == u.target then applyUpd c u.upd u.now else c, ?_, ?_, ?_⟩
  · unfold updateConversation
    rw [List.getElem?_map, hi]
    rfl
  · by_cases hct : (c.id == u.target) = true
    · rw [if_pos hct]
      have hok := (h c hmem (by simpa using hct)).1
      cases hm : u.upd.messages with
      | none => simp [applyUpd, hm]
      | some ms => simpa [applyUpd, hm] using hok ms hm
    · rw [if_neg hct]
  · by_cases hct : (c.id == u.target) = true
    · rw [if_pos hct]
      simpa [applyUpd] using (h c hmem (by simpa using hct)).2
    · rw [if_neg hct]

/-- Along a valid sequence, each position's transcript length and
`updatedAt` never decrease. -/
theorem applyCalls_mono (us : List UpdCall) (cs : List Conversation)
    (h : okSeq cs us) (i : Nat) (c : Conversation) (hi : cs[i]? = some c) :
    ∃ c', (applyCalls cs us)[i]? = some c' ∧
      c.messages.length ≤ c'.messages.length ∧ c.updatedAt ≤ c'.updatedAt := by
  induction us generalizing cs c with
  | nil => exact ⟨c, hi, le_refl _, le_refl _⟩
  | cons u rest ih =>
      obtain ⟨c1, h1, hl1, ht1⟩ := updateConversation_step_mono u cs h.1 i c hi
      obtain ⟨c2, h2, hl2, ht2⟩ :=
        ih (updateConversation u.target u.upd u.now cs) h.2 c1 h1
      exact ⟨c2, h2, le_trans hl1 hl2, le_trans ht1 ht2⟩

/-- C4 (amended): under the caller discipline §4.3 imposes — every `update`
call's `messages` field (when present) is at least as long as the matched
conversation's current transcript, and the clock it observes is at least
that conversation's current `updatedAt` — each conversation's transcript
length and `updatedAt` are monotonically non-decreasing between any two
points of the sequence of update calls. -/
theorem update_monotone (cs : List Conversation) (us1 us2 : List UpdCall)
    (h : okSeq cs (us1 ++ us2)) (i : Nat) (c c' : Conversation)
    (h1 : (applyCalls cs us1)[i]? = some c)
    (h2 : (applyCalls cs (us1 ++ us2))[i]? = some c') :
    c.messages.length ≤ c'.messages.length ∧ c.updatedAt ≤ c'.updatedAt := by
  obtain ⟨c'', hc'', hl, ht⟩ :=
    applyCalls_mono us2 (applyCalls cs us1) (okSeq_append us1 us2 cs h) i c h1
  rw [applyCalls_append, hc''] at h2
  obtain rfl : c'' = c' := Option.some.inj h2
  exact ⟨hl, ht⟩

/-- Witness for the C4 amended theorem: one valid transcript-extending call
grows a conversation's messages from 0 to 1 and its `updatedAt` from 0
to 7. -/
theorem update_monotone_witness :
    (⟨"a", "t", [], 0, 0⟩ : Conversation).messages.length ≤
        (⟨"a", "t", [⟨"m", "user", "hi", 7⟩], 0, 7⟩ : Conversation).messages.length ∧
      (⟨"a", "t", [], 0, 0⟩ : Conversation).updatedAt ≤
        (⟨"a", "t", [⟨"m", "user", "hi", 7⟩], 0, 7⟩ : Conversation).updatedAt :=
  update_monotone [⟨"a", "t", [], 0, 0⟩] [] [⟨"a", msgUpd [⟨"m", "user", "hi", 7⟩], 7⟩]
    (by
      refine ⟨?_, trivial⟩
      intro c hc hid
      simp only [List.mem_singleton] at hc
      subst hc
      constructor
      · intro ms hms
        cases hms
        decide
      · decide)
    0 ⟨"a", "t", [], 0, 0⟩ ⟨"a", "t", [⟨"m", "user", "hi", 7⟩], 0, 7⟩ rfl (by decide)

/-- C7: the conversation list exposed to callers is a permutation of the
directory, pairwise sorted by `updatedAt` descending, and the sort is
stable: for every timestamp, the conversations carrying exactly that
`updatedAt` appear in their original relative order (their filtered
subsequence is unchanged). -/
theorem sortedConversations_spec (cs : List Conversation) :
    (sortedConversations cs).Perm cs ∧
      (sortedConversations cs).Pairwise (fun a b => b.updatedAt ≤ a.updatedAt) ∧
      ∀ t : Nat,
        (sortedConversations cs).filter (fun c => c.updatedAt == t) =
          cs.filter (fun c => c.updatedAt == t) := by
  have htrans : ∀ a b c : Conversation,
      decide (b.updatedAt ≤ a.updatedAt) = true →
      decide (c.updatedAt ≤ b.updatedAt) = true →
      decide (c.updatedAt ≤ a.updatedAt) = true := by
    intro a b c h1 h2
    simp only [decide_eq_true_eq] at h1 h2 ⊢
    omega
  have htotal : ∀ a b : Conversation,
      (decide (b.updatedAt ≤ a.updatedAt) || decide (a.updatedAt ≤ b.updatedAt)) = true := by
    intro a b
    simp only [Bool.or_eq_true, decide_eq_true_eq]
    omega
  refine ⟨List.mergeSort_perm cs _, ?_, ?_⟩
  · have h := List.sorted_mergeSort htrans htotal cs
    exact h.imp (by intro a b hab; simpa using hab)
  · intro t
    have hmem : ∀ a ∈ cs.filter (fun c => c.updatedAt == t), a.updatedAt = t := by
      intro a ha
      simpa using List.of_mem_filter ha
    have hpair : (cs.filter (fun c => c.updatedAt == t)).Pairwise
        (fun a b => decide (b.updatedAt ≤ a.updatedAt) = true) := by
      apply List.pairwise_of_forall_mem_list
      intro a ha b hb
      rw [hmem a ha, hmem b hb]
      simp
    have hsub2 : (cs.filter (fun c => c.updatedAt == t)).Sublist (sortedConversations cs) :=
      List.sublist_mergeSort htrans htotal hpair (List.filter_sublist cs)
    have hperm : ((sortedConversations cs).filter (fun c => c.updatedAt == t)).Perm
        (cs.filter (fun c => c.updatedAt == t)) :=
      List.Perm.filter _ (List.mergeSort_perm cs _)
    have hself : (cs.filter (fun c => c.updatedAt == t)).filter
        (fun c => c.updatedAt == t) = cs.filter (fun c => c.updatedAt == t) :=
      List.filter_eq_self.mpr (fun a ha => by simpa using hmem a ha)
    have hsub3 : (cs.filter (fun c => c.updatedAt == t)).Sublist
        ((sortedConversations cs).filter (fun c => c.updatedAt == t)) := by
      have h2 := hsub2.filter (fun c => c.updatedAt == t)
      rwa [hself] at h2
    exact (hsub3.eq_of_length hperm.length_eq.symm).symm

/-- Witness for the C7 theorem: a two-element directory given out of order
comes back sorted (a permutation of the input). -/
theorem sortedConversations_spec_witness :
    (sortedConversations [⟨"a", "t1", [], 0, 1⟩, ⟨"b", "t2", [], 0, 5⟩]).Perm
      [⟨"a", "t1", [], 0, 1⟩, ⟨"b", "t2", [], 0, 5⟩] :=
  (sortedConversations_spec [⟨"a", "t1", [], 0, 1⟩, ⟨"b", "t2", [], 0, 5⟩]).1

end GenshinChat
